import Mathlib

/-!
Verification of the OMAR backend's session and rate-limit manager
(`src/services/session_manager.py`, `src/models/session.py`) and of the
debounce rate-limit variant in `src/app.py`, against the design document.

Conventions of the shallow embedding:

* Python dicts become association lists over `String` keys (`AList`);
  assignment overwrites the previous binding, deletion removes it, and
  `defaultdict(list)` reads are modelled with `Option.getD []`.
* Timestamps are integers counting whole seconds (`Int`); every call to
  `datetime.now()` inside one operation is modelled by a single `now`
  argument of that operation.  `timedelta(minutes=1)` is `60`,
  `timedelta(hours=h)` is `h * 3600`.
* `uuid.uuid4()` is modelled by an explicit `newId` argument of
  `create_session`; freshness of the generated id is a hypothesis where a
  statement needs it.
* The source file `session_manager.py` initialises its attributes under
  Spanish names (`sesiones`, `seguimiento_velocidad`, `bloqueo`,
  `max_interacciones`, `limite_por_minuto`) and uses English names for the
  same attributes in every method body (`sessions`, `rate_tracking`,
  `lock`, `max_interactions`, `rate_limit_per_minute`); likewise
  `Sesion`/`Session` and `EstadoSesion`/`SessionStatus`.  The embedding
  identifies each such pair as one entity and uses the English names of
  the method bodies.
* Methods mutating `self` become functions returning the updated value
  together with the Python return value.
* The manager's `threading.Lock` is non-reentrant: acquiring it while the
  same thread already holds it blocks forever.  The `withLock` layer
  models this; a computation that can block has type `Option α`, with
  `none` meaning the call never returns.
-/

namespace OMAR

/-- Association lists over string keys, modelling Python dicts. -/
abbrev AList (α : Type) := List (String × α)

namespace AList

/-- Lookup of a key, first binding wins (bindings are kept unique). -/
def find? {α : Type} : AList α → String → Option α
  | [], _ => none
  | p :: t, k => if p.1 = k then some p.2 else find? t k

/-- Deletion of a key, modelling `del d[k]` (no effect if absent). -/
def erase {α : Type} (m : AList α) (k : String) : AList α :=
  m.filter (fun p => decide (p.1 ≠ k))

/-- Assignment `d[k] = v`: overwrite any previous binding of `k`. -/
def insert {α : Type} (m : AList α) (k : String) (v : α) : AList α :=
  erase m k ++ [(k, v)]

/-- Keys of the dict, in order. -/
def keys {α : Type} (m : AList α) : List String :=
  m.map Prod.fst

end AList

/-- Two dicts with exactly the same key set (the registry/rate-window
pairing relation of the design document). -/
def sameKeys {α β : Type} (m₁ : AList α) (m₂ : AList β) : Prop :=
  ∀ k, (AList.find? m₁ k).isSome = (AList.find? m₂ k).isSome

/-- Session status, from class `EstadoSesion` (alias `SessionStatus`). -/
inductive EstadoSesion where
  | ACTIVA
  | EXPIRADA
  | LIMITADA_POR_VELOCIDAD
  | BLOQUEADA
deriving DecidableEq, Repr

/-- Session record, from class `Sesion` (alias `Session`) in
`src/models/session.py`.  Metadata values are the timestamps the manager
stores (the code stores their ISO string; the embedding keeps the
instant itself). -/
structure Sesion where
  id : String
  id_usuario : String
  creada_en : Int
  expira_en : Int
  contador_interacciones : Nat
  estado : EstadoSesion
  ultima_actividad : Int
  metadatos : AList Int
deriving DecidableEq, Repr

/-- Constructor `Sesion.__init__`: fresh session, active, expiring 8
hours after creation.  `id_sesion` stands for the `uuid4` the code
generates when no id is passed. -/
def Sesion.new (id_usuario : String) (id_sesion : String) (now : Int) : Sesion :=
  { id := id_sesion
    id_usuario := id_usuario
    creada_en := now
    expira_en := now + 8 * 3600
    contador_interacciones := 0
    estado := .ACTIVA
    ultima_actividad := now
    metadatos := [] }

/-- Method `Sesion.es_valida` (alias `is_valid`): returns the boolean the
code returns together with the session after the in-place status
mutation. -/
def es_valida (s : Sesion) (ahora : Int) : Bool × Sesion :=
  if s.expira_en < ahora then
    (false, { s with estado := .EXPIRADA })
  else if s.estado = .ACTIVA then
    (true, s)
  else
    (false, s)

/-- Method `Sesion.incrementar_interaccion` (alias
`increment_interaction`). -/
def incrementar_interaccion (s : Sesion) (max_interacciones : Nat) (ahora : Int) :
    Bool × Sesion :=
  if max_interacciones ≤ s.contador_interacciones then
    (false, { s with estado := .LIMITADA_POR_VELOCIDAD })
  else
    (true, { s with contador_interacciones := s.contador_interacciones + 1
                    ultima_actividad := ahora })

/-- Method `Sesion.extender_sesion` (alias `extend_session`). -/
def extender_sesion (s : Sesion) (horas : Nat) (ahora : Int) : Sesion :=
  { s with expira_en := s.expira_en + horas * 3600
           ultima_actividad := ahora }

/-- Method `Sesion.agregar_metadatos` (alias `add_metadata`). -/
def agregar_metadatos (s : Sesion) (clave : String) (valor : Int) : Sesion :=
  { s with metadatos := AList.insert s.metadatos clave valor }

/-- Manager state, from class `GestorSesiones` in
`src/services/session_manager.py`: the registry `sessions` (alias
`sesiones`), the two configured limits, and the rate-window index
`rate_tracking` (alias `seguimiento_velocidad`). -/
structure GestorSesiones where
  sessions : AList Sesion
  max_interactions : Nat
  rate_limit_per_minute : Nat
  rate_tracking : AList (List Int)
deriving DecidableEq, Repr

/-- Constructor `GestorSesiones.__init__` (defaults 50 and 10). -/
def GestorSesiones.init (max_interacciones : Nat) (limite_por_minuto : Nat) :
    GestorSesiones :=
  { sessions := []
    max_interactions := max_interacciones
    rate_limit_per_minute := limite_por_minuto
    rate_tracking := [] }

/-- Body of `GestorSesiones.create_session` (state transformer under the
lock).  `newId` stands for the `uuid4` allocated inside
`Sesion.__init__`. -/
def create_session (g : GestorSesiones) (user_credentials : AList String)
    (newId : String) (now : Int) : Sesion × GestorSesiones :=
  let user_id := (AList.find? user_credentials "user_id").getD "anonymous"
  let s := Sesion.new user_id newId now
  (s, { g with sessions := AList.insert g.sessions newId s
               rate_tracking := AList.insert g.rate_tracking newId [] })

/-- Body of `GestorSesiones.validate_session`: looks up the id, calls
`es_valida`, and on an invalid session deletes both the registry entry
and the rate window before signalling `None`. -/
def validate_session (g : GestorSesiones) (session_id : String) (now : Int) :
    Option Sesion × GestorSesiones :=
  match AList.find? g.sessions session_id with
  | none => (none, g)
  | some s =>
    let v := es_valida s now
    if v.1 = false then
      (none, { g with sessions := AList.erase g.sessions session_id
                      rate_tracking := AList.erase g.rate_tracking session_id })
    else
      (some v.2, { g with sessions := AList.insert g.sessions session_id v.2 })

/-- Body of `GestorSesiones._check_rate_limit`: reads the window
(`defaultdict` read), keeps only the timestamps of the last 60 seconds,
writes the pruned window back, and compares against the limit. -/
def check_rate_limit (g : GestorSesiones) (session_id : String) (now : Int) :
    Bool × GestorSesiones :=
  let recent := (AList.find? g.rate_tracking session_id).getD []
  let recent2 := recent.filter (fun r => decide (now - 60 < r))
  (decide (recent2.length < g.rate_limit_per_minute),
   { g with rate_tracking := AList.insert g.rate_tracking session_id recent2 })

/-- Outcome of `track_interaction`, one constructor per return path of
the source (the code returns a bare bool but logs a distinct reason on
each path; `accepted` is the single `True` path). -/
inductive TrackResult where
  | accepted
  | invalid_session
  | rate_limited
  | interaction_cap
deriving DecidableEq, Repr

/-- Continuation of `GestorSesiones.track_interaction` after the inner
`validate_session` call has produced its result. -/
def track_after (g1 : GestorSesiones) (session_id : String)
    (interaction_type : String) (now : Int) :
    Option Sesion → TrackResult × GestorSesiones
  | none => (.invalid_session, g1)
  | some s =>
    let rl := check_rate_limit g1 session_id now
    let g2 := rl.2
    if rl.1 = false then
      (.rate_limited,
       { g2 with sessions := AList.insert g2.sessions session_id
                   { s with estado := .LIMITADA_POR_VELOCIDAD } })
    else
      let incr := incrementar_interaccion s g2.max_interactions now
      if incr.1 = false then
        (.interaction_cap,
         { g2 with sessions := AList.insert g2.sessions session_id incr.2 })
      else
        let s3 := agregar_metadatos incr.2 ("last_" ++ interaction_type) now
        (.accepted,
         { g2 with
             sessions := AList.insert g2.sessions session_id s3
             rate_tracking := AList.insert g2.rate_tracking session_id
               (((AList.find? g2.rate_tracking session_id).getD []) ++ [now]) })

/-- Body of `GestorSesiones.track_interaction`. -/
def track_interaction (g : GestorSesiones) (session_id : String)
    (interaction_type : String) (now : Int) : TrackResult × GestorSesiones :=
  let v := validate_session g session_id now
  track_after v.2 session_id interaction_type now v.1

/-- Result dictionary of `apply_rate_limiting`; keys the code omits on a
given path are `none`. -/
structure RateInfo where
  allowed : Bool
  reason : Option String
  retry_after : Option Int
  current_count : Option Nat
  remaining : Option Nat
  limit : Option Nat
deriving DecidableEq, Repr

/-- Continuation of `GestorSesiones.apply_rate_limiting` after the inner
`validate_session` call.  `now.replace(second=0, microsecond=0) +
timedelta(minutes=1)` is the next wall-clock minute boundary
`(now - now % 60) + 60`. -/
def apply_after (g1 : GestorSesiones) (session_id : String) (now : Int) :
    Option Sesion → RateInfo × GestorSesiones
  | none =>
    ({ allowed := false, reason := some "invalid_session", retry_after := none
       current_count := none, remaining := none, limit := none }, g1)
  | some _ =>
    let rl := check_rate_limit g1 session_id now
    let g2 := rl.2
    if rl.1 = false then
      let next_minute := (now - now % 60) + 60
      ({ allowed := false, reason := some "rate_limit_exceeded"
         retry_after := some (next_minute - now)
         current_count := some ((AList.find? g2.rate_tracking session_id).getD []).length
         remaining := none
         limit := some g2.rate_limit_per_minute }, g2)
    else
      ({ allowed := true, reason := none, retry_after := none, current_count := none
         remaining := some (g2.rate_limit_per_minute -
           ((AList.find? g2.rate_tracking session_id).getD []).length)
         limit := some g2.rate_limit_per_minute }, g2)

/-- Body of `GestorSesiones.apply_rate_limiting`. -/
def apply_rate_limiting (g : GestorSesiones) (session_id : String) (now : Int) :
    RateInfo × GestorSesiones :=
  let v := validate_session g session_id now
  apply_after v.2 session_id now v.1

/-- Body of `GestorSesiones.cleanup_expired_sessions`: two phases, first
collect every id whose session reports invalid, then delete registry
entry and rate window for each collected id. -/
def cleanup_expired_sessions (g : GestorSesiones) (now : Int) :
    Nat × GestorSesiones :=
  let expired :=
    (g.sessions.filter (fun p => decide ((es_valida p.2 now).1 = false))).map Prod.fst
  (expired.length,
   { g with sessions := expired.foldl AList.erase g.sessions
            rate_tracking := expired.foldl AList.erase g.rate_tracking })

/-- Statistics dictionary of `get_session_stats`. -/
structure Stats where
  total_sessions : Nat
  active_sessions : Nat
  expired_sessions : Nat
  rate_limited_sessions : Nat
  rate_tracking_entries : Nat
deriving DecidableEq, Repr

/-- Body of `GestorSesiones.get_session_stats` (read-only). -/
def get_session_stats (g : GestorSesiones) : Stats :=
  { total_sessions := g.sessions.length
    active_sessions :=
      (g.sessions.filter (fun p => decide (p.2.estado = .ACTIVA))).length
    expired_sessions :=
      (g.sessions.filter (fun p => decide (p.2.estado = .EXPIRADA))).length
    rate_limited_sessions :=
      (g.sessions.filter (fun p => decide (p.2.estado = .LIMITADA_POR_VELOCIDAD))).length
    rate_tracking_entries := g.rate_tracking.length }

/-- Continuation of `GestorSesiones.extend_session` after the inner
`validate_session` call. -/
def extend_after (g1 : GestorSesiones) (session_id : String) (horas : Nat)
    (now : Int) : Option Sesion → Bool × GestorSesiones
  | none => (false, g1)
  | some s =>
    (true, { g1 with sessions :=
               AList.insert g1.sessions session_id (extender_sesion s horas now) })

/-- Body of `GestorSesiones.extend_session`. -/
def extend_session (g : GestorSesiones) (session_id : String) (horas : Nat)
    (now : Int) : Bool × GestorSesiones :=
  let v := validate_session g session_id now
  extend_after v.2 session_id horas now v.1

/-- One public Manager call, for stating properties of whole operation
sequences. -/
inductive Op where
  | create (creds : AList String) (newId : String) (now : Int)
  | validate (sid : String) (now : Int)
  | track (sid ty : String) (now : Int)
  | applyRL (sid : String) (now : Int)
  | cleanup (now : Int)
  | extend (sid : String) (horas : Nat) (now : Int)
  | stats
deriving Repr

/-- Manager state after one public call. -/
def step (g : GestorSesiones) : Op → GestorSesiones
  | .create creds newId now => (create_session g creds newId now).2
  | .validate sid now => (validate_session g sid now).2
  | .track sid ty now => (track_interaction g sid ty now).2
  | .applyRL sid now => (apply_rate_limiting g sid now).2
  | .cleanup now => (cleanup_expired_sessions g now).2
  | .extend sid horas now => (extend_session g sid horas now).2
  | .stats => g

/-- Manager state after a sequence of public calls. -/
def run (g : GestorSesiones) (ops : List Op) : GestorSesiones :=
  ops.foldl step g

/-!
Lock layer.  Every public method's body is wrapped in
`with self.lock: ...`.  The lock is `threading.Lock()`, which is not
reentrant: a second `acquire` by the thread already holding it blocks
forever.  `none` models a call that never returns.
-/

/-- Acquire the manager's (non-reentrant) exclusive lock around `body`;
`held` records whether the calling thread already holds it. -/
def withLock {α : Type} (held : Bool) (body : Bool → Option α) : Option α :=
  if held then none else body true

/-- `create_session` as actually callable: body under the lock. -/
def create_sessionL (g : GestorSesiones) (creds : AList String) (newId : String)
    (now : Int) (held : Bool) : Option (Sesion × GestorSesiones) :=
  withLock held (fun _ => some (create_session g creds newId now))

/-- `validate_session` as actually callable: body under the lock. -/
def validate_sessionL (g : GestorSesiones) (sid : String) (now : Int)
    (held : Bool) : Option (Option Sesion × GestorSesiones) :=
  withLock held (fun _ => some (validate_session g sid now))

/-- `track_interaction` as actually callable: under the lock it invokes
the public `validate_session` (which acquires the lock again) and then
runs the rest of its body on the result. -/
def track_interactionL (g : GestorSesiones) (sid ty : String) (now : Int)
    (held : Bool) : Option (TrackResult × GestorSesiones) :=
  withLock held (fun h =>
    (validate_sessionL g sid now h).map (fun v => track_after v.2 sid ty now v.1))

/-- `apply_rate_limiting` as actually callable: same nested
`validate_session` call under the lock. -/
def apply_rate_limitingL (g : GestorSesiones) (sid : String) (now : Int)
    (held : Bool) : Option (RateInfo × GestorSesiones) :=
  withLock held (fun h =>
    (validate_sessionL g sid now h).map (fun v => apply_after v.2 sid now v.1))

/-- `extend_session` as actually callable: same nested `validate_session`
call under the lock. -/
def extend_sessionL (g : GestorSesiones) (sid : String) (horas : Nat) (now : Int)
    (held : Bool) : Option (Bool × GestorSesiones) :=
  withLock held (fun h =>
    (validate_sessionL g sid now h).map (fun v => extend_after v.2 sid horas now v.1))

/-- `cleanup_expired_sessions` as actually callable: body under the lock. -/
def cleanup_expired_sessionsL (g : GestorSesiones) (now : Int) (held : Bool) :
    Option (Nat × GestorSesiones) :=
  withLock held (fun _ => some (cleanup_expired_sessions g now))

/-- `get_session_stats` as actually callable: body under the lock. -/
def get_session_statsL (g : GestorSesiones) (held : Bool) : Option Stats :=
  withLock held (fun _ => some (get_session_stats g))

/-- Interaction-cap invariant: every stored session's counter is within
the manager's configured maximum. -/
def counterOK (g : GestorSesiones) : Prop :=
  ∀ sid s, AList.find? g.sessions sid = some s →
    s.contador_interacciones ≤ g.max_interactions

/-- State after `k` consecutive `track_interaction` calls on the same
session id, all at the same instant `t`. -/
def trackN (g : GestorSesiones) (sid : String) (t : Int) : Nat → GestorSesiones
  | 0 => g
  | k + 1 => (track_interaction (trackN g sid t k) sid "chat" t).2

/-- The session record reached after `k` accepted `chat` interactions at
instant `t` on a session created at `t`. -/
def sesK (uid sid : String) (t : Int) (k : Nat) : Sesion :=
  { id := sid
    id_usuario := uid
    creada_en := t
    expira_en := t + 8 * 3600
    contador_interacciones := k
    estado := .ACTIVA
    ultima_actividad := t
    metadatos := if k = 0 then [] else [("last_chat", t)] }

/-- The manager state reached after `k` accepted `chat` interactions at
instant `t` on a single session created at `t`. -/
def gesK (mx lim : Nat) (uid sid : String) (t : Int) (k : Nat) : GestorSesiones :=
  { sessions := [(sid, sesK uid sid t k)]
    max_interactions := mx
    rate_limit_per_minute := lim
    rate_tracking := [(sid, List.replicate k t)] }

/-- A session that is rate limited by status but not yet expired by
time. -/
def sesLimitada : Sesion :=
  { id := "s", id_usuario := "u", creada_en := 0, expira_en := 100
    contador_interacciones := 3, estado := .LIMITADA_POR_VELOCIDAD
    ultima_actividad := 0, metadatos := [] }

/-- An active session with plenty of remaining lifetime. -/
def sesActiva : Sesion :=
  { id := "a", id_usuario := "u", creada_en := 0, expira_en := 28800
    contador_interacciones := 1, estado := .ACTIVA
    ultima_actividad := 0, metadatos := [] }

/-- A manager holding one active and one status-limited session, both
with their paired rate windows. -/
def gesMixto : GestorSesiones :=
  { sessions := [("a", sesActiva), ("s", sesLimitada)]
    max_interactions := 50
    rate_limit_per_minute := 10
    rate_tracking := [("a", [5]), ("s", [])] }

/-- A manager holding one valid session whose rate window still contains
a timestamp older than 60 seconds relative to instant 100. -/
def gesStale : GestorSesiones :=
  { sessions := [("a", sesActiva)]
    max_interactions := 50
    rate_limit_per_minute := 10
    rate_tracking := [("a", [0])] }

/-- A manager holding one valid session whose pruned window is already
at the limit 1 at instant 100. -/
def gesLleno : GestorSesiones :=
  { sessions := [("a", sesActiva)]
    max_interactions := 50
    rate_limit_per_minute := 1
    rate_tracking := [("a", [0, 95])] }

/-- The sliding window `_check_rate_limit` computes: the stored window
restricted to the timestamps of the last 60 seconds. -/
def prunedWindow (g : GestorSesiones) (sid : String) (now : Int) : List Int :=
  ((AList.find? g.rate_tracking sid).getD []).filter (fun r => decide (now - 60 < r))

/-- A manager holding one session that has expired by time at instant
30000. -/
def gesExpirado : GestorSesiones :=
  { sessions := [("s", Sesion.new "u" "s" 0)]
    max_interactions := 50
    rate_limit_per_minute := 10
    rate_tracking := [("s", [0])] }

end OMAR

namespace App

/-!
Debounce rate-limit variant from `src/app.py` (module-level `sessions`
dict of plain per-session dicts).  Only the fields `apply_rate_limit`
and `push_turn` touch are modelled.
-/

/-- One conversation turn, from `push_turn`. -/
structure Turn where
  question : String
  answer : String
  timestamp : Int
deriving DecidableEq, Repr

/-- The per-session dict of `app.py` (`turns`, `last_interaction`). -/
structure SessionData where
  turns : List Turn
  last_interaction : Option Int
deriving DecidableEq, Repr

/-- `push_turn`: appends the turn and stamps `last_interaction`. -/
def push_turn (sd : SessionData) (question answer : String) (now : Int) :
    SessionData :=
  { sd with turns := sd.turns ++ [{ question := question, answer := answer
                                    timestamp := now }]
            last_interaction := some now }

/-- The `seconds` attribute of a Python `timedelta` of `d` whole seconds:
the seconds component after normalisation into (days, seconds,
microseconds), i.e. `d mod 86400` — not the total duration. -/
def timedelta_seconds (d : Int) : Int := d % 86400

/-- `apply_rate_limit` from `src/app.py`: flags the request as too fast
(`True`) when `last_interaction` is set and
`(now - last_interaction).seconds < 2`. -/
def apply_rate_limit (last_interaction : Option Int) (now : Int) : Bool :=
  match last_interaction with
  | none => false
  | some t => decide (timedelta_seconds (now - t) < 2)

end App

namespace OMAR

/-! Dictionary lemmas. -/

theorem AList.find?_nil {α : Type} (k : String) :
    AList.find? ([] : AList α) k = none := rfl

theorem AList.find?_cons {α : Type} (p : String × α) (t : AList α) (k : String) :
    AList.find? (p :: t) k = if p.1 = k then some p.2 else AList.find? t k := rfl

theorem AList.erase_nil {α : Type} (k : String) :
    AList.erase ([] : AList α) k = [] := rfl

theorem AList.erase_cons {α : Type} (p : String × α) (t : AList α) (k : String) :
    AList.erase (p :: t) k =
      if p.1 = k then AList.erase t k else p :: AList.erase t k := by
  by_cases h : p.1 = k <;> simp [AList.erase, List.filter_cons, h]

theorem AList.find?_append {α : Type} (m₁ m₂ : AList α) (k : String) :
    AList.find? (m₁ ++ m₂) k =
      match AList.find? m₁ k with
      | some v => some v
      | none => AList.find? m₂ k := by
  induction m₁ with
  | nil => simp [AList.find?_nil]
  | cons p t ih => by_cases h : p.1 = k <;> simp [AList.find?_cons, h, ih]

theorem AList.find?_erase_self {α : Type} (m : AList α) (k : String) :
    AList.find? (AList.erase m k) k = none := by
  induction m with
  | nil => rfl
  | cons p t ih =>
    rw [AList.erase_cons]
    by_cases h : p.1 = k
    · simpa [h] using ih
    · simpa [h, AList.find?_cons] using ih

theorem AList.find?_erase_ne {α : Type} (m : AList α) (k k' : String)
    (h : k' ≠ k) : AList.find? (AList.erase m k) k' = AList.find? m k' := by
  induction m with
  | nil => rfl
  | cons p t ih =>
    rw [AList.erase_cons]
    by_cases h1 : p.1 = k
    · have h2 : ¬ p.1 = k' := by
        intro hc
        rw [← hc] at h
        exact h h1
      rw [if_pos h1, AList.find?_cons, if_neg h2]
      exact ih
    · rw [if_neg h1, AList.find?_cons, AList.find?_cons]
      by_cases h2 : p.1 = k' <;> simp [h2, ih]

theorem AList.find?_insert_self {α : Type} (m : AList α) (k : String) (v : α) :
    AList.find? (AList.insert m k v) k = some v := by
  simp [AList.insert, AList.find?_append, AList.find?_erase_self, AList.find?_cons]

theorem AList.find?_insert_ne {α : Type} (m : AList α) (k k' : String) (v : α)
    (h : k' ≠ k) : AList.find? (AList.insert m k v) k' = AList.find? m k' := by
  have h2 : ¬ k = k' := by
    intro hc
    rw [hc] at h
    exact h rfl
  rw [AList.insert, AList.find?_append, AList.find?_erase_ne m k k' h]
  cases hf : AList.find? m k' <;> simp [AList.find?_cons, AList.find?_nil, h2]

theorem AList.erase_of_find?_none {α : Type} (m : AList α) (k : String)
    (h : AList.find? m k = none) : AList.erase m k = m := by
  induction m with
  | nil => rfl
  | cons p t ih =>
    rw [AList.find?_cons] at h
    by_cases h1 : p.1 = k
    · simp [h1] at h
    · rw [if_neg h1] at h
      rw [AList.erase_cons, if_neg h1, ih h]

theorem AList.find?_foldl_erase {α : Type} (ks : List String) (m : AList α)
    (k : String) :
    AList.find? (ks.foldl AList.erase m) k =
      if k ∈ ks then none else AList.find? m k := by
  induction ks generalizing m with
  | nil => simp
  | cons a t ih =>
    simp only [List.foldl_cons, ih]
    by_cases h2 : k = a
    · simp [h2, AList.find?_erase_self]
    · simp [h2, AList.find?_erase_ne m a k h2, List.mem_cons]

theorem AList.mem_of_find?_eq_some {α : Type} {m : AList α} {k : String} {v : α}
    (h : AList.find? m k = some v) : (k, v) ∈ m := by
  induction m with
  | nil => simp [AList.find?_nil] at h
  | cons p t ih =>
    rw [AList.find?_cons] at h
    by_cases h1 : p.1 = k
    · rw [if_pos h1, Option.some_inj] at h
      have hp : (k, v) = p := by
        rw [← h1, ← h]
      exact List.mem_cons.mpr (Or.inl hp)
    · rw [if_neg h1] at h
      exact List.mem_cons_of_mem _ (ih h)

theorem AList.find?_eq_some_of_mem {α : Type} {m : AList α} {k : String} {v : α}
    (hnd : (AList.keys m).Nodup) (h : (k, v) ∈ m) :
    AList.find? m k = some v := by
  induction m with
  | nil => simp at h
  | cons p t ih =>
    have hnd2 : p.1 ∉ List.map Prod.fst t ∧ (AList.keys t).Nodup := by
      simpa [AList.keys, List.nodup_cons] using hnd
    rcases List.mem_cons.mp h with h0 | h0
    · rw [← h0, AList.find?_cons, if_pos rfl]
    · have hk : ¬ p.1 = k := by
        intro hc
        apply hnd2.1
        rw [hc]
        exact List.mem_map_of_mem Prod.fst h0
      rw [AList.find?_cons, if_neg hk]
      exact ih hnd2.2 h0

/-! Helper lemmas about the session entity and the validator. -/

theorem es_valida_true {s : Sesion} {now : Int}
    (h : (es_valida s now).1 = true) :
    (es_valida s now).2 = s ∧ s.estado = .ACTIVA ∧ ¬ s.expira_en < now := by
  by_cases h1 : s.expira_en < now
  · simp [es_valida, h1] at h
  · by_cases h2 : s.estado = EstadoSesion.ACTIVA
    · exact ⟨by simp [es_valida, h1, h2], h2, h1⟩
    · simp [es_valida, h1, h2] at h

/-- Trichotomy describing `validate_session` on every state: id absent,
id present but invalid (eviction of both entries), or id present and
valid (session returned, registry semantically unchanged). -/
theorem validate_session_spec (g : GestorSesiones) (sid : String) (now : Int) :
    (AList.find? g.sessions sid = none ∧ validate_session g sid now = (none, g)) ∨
    (∃ s, AList.find? g.sessions sid = some s ∧ (es_valida s now).1 = false ∧
      validate_session g sid now =
        (none, { g with sessions := AList.erase g.sessions sid
                        rate_tracking := AList.erase g.rate_tracking sid })) ∨
    (∃ s, AList.find? g.sessions sid = some s ∧ (es_valida s now).1 = true ∧
      validate_session g sid now =
        (some s, { g with sessions := AList.insert g.sessions sid s })) := by
  unfold validate_session
  cases hf : AList.find? g.sessions sid with
  | none => exact Or.inl ⟨rfl, rfl⟩
  | some s =>
    cases hv : (es_valida s now).1 with
    | false => exact Or.inr (Or.inl ⟨s, rfl, hv, by simp [hv]⟩)
    | true =>
      refine Or.inr (Or.inr ⟨s, rfl, hv, ?_⟩)
      have he := (es_valida_true hv).1
      simp [hv, he]

/-! Key-set composition lemmas. -/

theorem sameKeys_insert {α β : Type} {m₁ : AList α} {m₂ : AList β}
    (h : sameKeys m₁ m₂) (k : String) (v : α) (w : β) :
    sameKeys (AList.insert m₁ k v) (AList.insert m₂ k w) := by
  intro k2
  by_cases he : k2 = k
  · rw [he, AList.find?_insert_self, AList.find?_insert_self]
    rfl
  · rw [AList.find?_insert_ne _ _ _ _ he, AList.find?_insert_ne _ _ _ _ he]
    exact h k2

theorem sameKeys_insert_left {α β : Type} {m₁ : AList α} {m₂ : AList β}
    (h : sameKeys m₁ m₂) (k : String) (v : α)
    (hk : (AList.find? m₂ k).isSome = true) :
    sameKeys (AList.insert m₁ k v) m₂ := by
  intro k2
  by_cases he : k2 = k
  · rw [he, AList.find?_insert_self, hk]
    rfl
  · rw [AList.find?_insert_ne _ _ _ _ he]
    exact h k2

theorem sameKeys_insert_right {α β : Type} {m₁ : AList α} {m₂ : AList β}
    (h : sameKeys m₁ m₂) (k : String) (w : β)
    (hk : (AList.find? m₁ k).isSome = true) :
    sameKeys m₁ (AList.insert m₂ k w) := by
  intro k2
  by_cases he : k2 = k
  · rw [he, AList.find?_insert_self, hk]
    rfl
  · rw [AList.find?_insert_ne _ _ _ _ he]
    exact h k2

theorem sameKeys_erase {α β : Type} {m₁ : AList α} {m₂ : AList β}
    (h : sameKeys m₁ m₂) (k : String) :
    sameKeys (AList.erase m₁ k) (AList.erase m₂ k) := by
  intro k2
  by_cases he : k2 = k
  · rw [he, AList.find?_erase_self, AList.find?_erase_self]
    rfl
  · rw [AList.find?_erase_ne _ _ _ he, AList.find?_erase_ne _ _ _ he]
    exact h k2

theorem sameKeys_foldl_erase {α β : Type} {m₁ : AList α} {m₂ : AList β}
    (h : sameKeys m₁ m₂) (ks : List String) :
    sameKeys (ks.foldl AList.erase m₁) (ks.foldl AList.erase m₂) := by
  intro k
  rw [AList.find?_foldl_erase, AList.find?_foldl_erase]
  by_cases hk : k ∈ ks <;> simp [hk, h k]

/-! State-shape lemmas for the operations. -/

theorem check_rate_limit_state (g : GestorSesiones) (sid : String) (now : Int) :
    (check_rate_limit g sid now).2 =
      { g with rate_tracking :=
                 AList.insert g.rate_tracking sid (prunedWindow g sid now) } := rfl

theorem apply_after_some_state (g1 : GestorSesiones) (sid : String) (now : Int)
    (s : Sesion) :
    (apply_after g1 sid now (some s)).2 = (check_rate_limit g1 sid now).2 := by
  dsimp only [apply_after]
  split <;> rfl

theorem validate_session_some_find (g : GestorSesiones) (sid : String) (now : Int)
    (s : Sesion) (hs : (validate_session g sid now).1 = some s) :
    AList.find? (validate_session g sid now).2.sessions sid = some s := by
  rcases validate_session_spec g sid now with ⟨_, hh⟩ | ⟨s0, _, _, hh⟩ | ⟨s0, hf, hv, hh⟩ <;>
    rw [hh] at hs ⊢
  · cases hs
  · cases hs
  · injection hs with hs
    rw [← hs]
    dsimp only
    rw [AList.find?_insert_self]

theorem validate_session_max (g : GestorSesiones) (sid : String) (now : Int) :
    (validate_session g sid now).2.max_interactions = g.max_interactions := by
  rcases validate_session_spec g sid now with ⟨_, hh⟩ | ⟨s0, _, _, hh⟩ | ⟨s0, _, _, hh⟩ <;>
    rw [hh]

theorem track_after_max (g1 : GestorSesiones) (sid ty : String) (now : Int)
    (r : Option Sesion) :
    (track_after g1 sid ty now r).2.max_interactions = g1.max_interactions := by
  cases r with
  | none => rfl
  | some s =>
    dsimp only [track_after]
    split
    · rfl
    · split <;> rfl

theorem apply_after_max (g1 : GestorSesiones) (sid : String) (now : Int)
    (r : Option Sesion) :
    (apply_after g1 sid now r).2.max_interactions = g1.max_interactions := by
  cases r with
  | none => rfl
  | some s =>
    rw [apply_after_some_state]
    rfl

theorem extend_after_max (g1 : GestorSesiones) (sid : String) (horas : Nat)
    (now : Int) (r : Option Sesion) :
    (extend_after g1 sid horas now r).2.max_interactions = g1.max_interactions := by
  cases r <;> rfl

/-! Preservation of the interaction-cap invariant by each operation. -/

theorem create_session_counterOK (g : GestorSesiones) (creds : AList String)
    (newId : String) (now : Int) (h : counterOK g) :
    counterOK (create_session g creds newId now).2 := by
  intro sid s hf
  dsimp only [create_session] at hf ⊢
  by_cases he : sid = newId
  · rw [he, AList.find?_insert_self] at hf
    injection hf with hf
    rw [← hf]
    exact Nat.zero_le _
  · rw [AList.find?_insert_ne _ _ _ _ he] at hf
    exact h sid s hf

theorem validate_session_counterOK (g : GestorSesiones) (sid : String) (now : Int)
    (h : counterOK g) : counterOK (validate_session g sid now).2 := by
  rcases validate_session_spec g sid now with ⟨_, hh⟩ | ⟨s0, hf, _, hh⟩ | ⟨s0, hf, _, hh⟩ <;>
    rw [hh]
  · exact h
  · intro sid2 s2 hfind
    dsimp only at hfind ⊢
    by_cases he : sid2 = sid
    · rw [he, AList.find?_erase_self] at hfind
      cases hfind
    · rw [AList.find?_erase_ne _ _ _ he] at hfind
      exact h sid2 s2 hfind
  · intro sid2 s2 hfind
    dsimp only at hfind ⊢
    by_cases he : sid2 = sid
    · rw [he, AList.find?_insert_self] at hfind
      injection hfind with hfind
      rw [← hfind]
      exact h sid s0 hf
    · rw [AList.find?_insert_ne _ _ _ _ he] at hfind
      exact h sid2 s2 hfind

theorem track_after_counterOK (g1 : GestorSesiones) (sid ty : String) (now : Int)
    (r : Option Sesion) (h : counterOK g1)
    (hr : ∀ s, r = some s → AList.find? g1.sessions sid = some s) :
    counterOK (track_after g1 sid ty now r).2 := by
  cases r with
  | none => exact h
  | some s =>
    have hc : s.contador_interacciones ≤ g1.max_interactions := h sid s (hr s rfl)
    dsimp only [track_after]
    split
    · intro sid2 s2 hf
      dsimp only [check_rate_limit] at hf ⊢
      by_cases he : sid2 = sid
      · rw [he, AList.find?_insert_self] at hf
        injection hf with hf
        rw [← hf]
        exact hc
      · rw [AList.find?_insert_ne _ _ _ _ he] at hf
        exact h sid2 s2 hf
    · by_cases hmx : g1.max_interactions ≤ s.contador_interacciones
      · rw [if_pos (by simp [incrementar_interaccion, check_rate_limit, hmx])]
        intro sid2 s2 hf
        dsimp only [check_rate_limit, incrementar_interaccion] at hf ⊢
        rw [if_pos hmx] at hf
        by_cases he : sid2 = sid
        · rw [he, AList.find?_insert_self] at hf
          injection hf with hf
          rw [← hf]
          exact hc
        · rw [AList.find?_insert_ne _ _ _ _ he] at hf
          exact h sid2 s2 hf
      · rw [if_neg (by simp [incrementar_interaccion, check_rate_limit, hmx])]
        intro sid2 s2 hf
        dsimp only [check_rate_limit, incrementar_interaccion, agregar_metadatos] at hf ⊢
        rw [if_neg hmx] at hf
        by_cases he : sid2 = sid
        · rw [he, AList.find?_insert_self] at hf
          injection hf with hf
          rw [← hf]
          exact Nat.succ_le_of_lt (Nat.lt_of_not_le hmx)
        · rw [AList.find?_insert_ne _ _ _ _ he] at hf
          exact h sid2 s2 hf

theorem apply_after_counterOK (g1 : GestorSesiones) (sid : String) (now : Int)
    (r : Option Sesion) (h : counterOK g1) :
    counterOK (apply_after g1 sid now r).2 := by
  cases r with
  | none => exact h
  | some s =>
    rw [apply_after_some_state]
    exact h

theorem extend_after_counterOK (g1 : GestorSesiones) (sid : String) (horas : Nat)
    (now : Int) (r : Option Sesion) (h : counterOK g1)
    (hr : ∀ s, r = some s → AList.find? g1.sessions sid = some s) :
    counterOK (extend_after g1 sid horas now r).2 := by
  cases r with
  | none => exact h
  | some s =>
    intro sid2 s2 hf
    dsimp only [extend_after] at hf ⊢
    by_cases he : sid2 = sid
    · rw [he, AList.find?_insert_self] at hf
      injection hf with hf
      rw [← hf]
      exact h sid s (hr s rfl)
    · rw [AList.find?_insert_ne _ _ _ _ he] at hf
      exact h sid2 s2 hf

theorem cleanup_counterOK (g : GestorSesiones) (now : Int) (h : counterOK g) :
    counterOK (cleanup_expired_sessions g now).2 := by
  intro sid s hf
  dsimp only [cleanup_expired_sessions] at hf ⊢
  rw [AList.find?_foldl_erase] at hf
  split at hf
  · cases hf
  · exact h sid s hf

/-! Preservation of the registry/rate-window pairing by each operation. -/

theorem create_session_sameKeys (g : GestorSesiones) (creds : AList String)
    (newId : String) (now : Int) (h : sameKeys g.sessions g.rate_tracking) :
    sameKeys (create_session g creds newId now).2.sessions
      (create_session g creds newId now).2.rate_tracking := by
  dsimp only [create_session]
  exact sameKeys_insert h newId _ _

theorem validate_session_sameKeys (g : GestorSesiones) (sid : String) (now : Int)
    (h : sameKeys g.sessions g.rate_tracking) :
    sameKeys (validate_session g sid now).2.sessions
      (validate_session g sid now).2.rate_tracking := by
  rcases validate_session_spec g sid now with ⟨_, hh⟩ | ⟨s0, hf, _, hh⟩ | ⟨s0, hf, _, hh⟩ <;>
    rw [hh]
  · exact h
  · exact sameKeys_erase h sid
  · have hk := h sid
    rw [hf] at hk
    exact sameKeys_insert_left h sid s0 hk.symm

theorem track_after_sameKeys (g1 : GestorSesiones) (sid ty : String) (now : Int)
    (r : Option Sesion) (h : sameKeys g1.sessions g1.rate_tracking)
    (hr : ∀ s, r = some s → (AList.find? g1.sessions sid).isSome = true) :
    sameKeys (track_after g1 sid ty now r).2.sessions
      (track_after g1 sid ty now r).2.rate_tracking := by
  cases r with
  | none => exact h
  | some s =>
    have hsid := hr s rfl
    have h2 : sameKeys g1.sessions
        (AList.insert g1.rate_tracking sid (prunedWindow g1 sid now)) :=
      sameKeys_insert_right h sid _ hsid
    dsimp only [track_after]
    rw [check_rate_limit_state]
    dsimp only
    split
    · exact sameKeys_insert h sid _ _
    · split
      · exact sameKeys_insert h sid _ _
      · exact sameKeys_insert h2 sid _ _

theorem apply_after_sameKeys (g1 : GestorSesiones) (sid : String) (now : Int)
    (r : Option Sesion) (h : sameKeys g1.sessions g1.rate_tracking)
    (hr : ∀ s, r = some s → (AList.find? g1.sessions sid).isSome = true) :
    sameKeys (apply_after g1 sid now r).2.sessions
      (apply_after g1 sid now r).2.rate_tracking := by
  cases r with
  | none => exact h
  | some s =>
    rw [apply_after_some_state, check_rate_limit_state]
    exact sameKeys_insert_right h sid _ (hr s rfl)

theorem extend_after_sameKeys (g1 : GestorSesiones) (sid : String) (horas : Nat)
    (now : Int) (r : Option Sesion) (h : sameKeys g1.sessions g1.rate_tracking)
    (hr : ∀ s, r = some s → (AList.find? g1.sessions sid).isSome = true) :
    sameKeys (extend_after g1 sid horas now r).2.sessions
      (extend_after g1 sid horas now r).2.rate_tracking := by
  cases r with
  | none => exact h
  | some s =>
    dsimp only [extend_after]
    apply sameKeys_insert_left h sid
    rw [← h sid]
    exact hr s rfl

theorem cleanup_sameKeys (g : GestorSesiones) (now : Int)
    (h : sameKeys g.sessions g.rate_tracking) :
    sameKeys (cleanup_expired_sessions g now).2.sessions
      (cleanup_expired_sessions g now).2.rate_tracking := by
  dsimp only [cleanup_expired_sessions]
  exact sameKeys_foldl_erase h _

/-! Preservation lemmas assembled over the public interface. -/

theorem step_sameKeys (g : GestorSesiones) (op : Op)
    (h : sameKeys g.sessions g.rate_tracking) :
    sameKeys (step g op).sessions (step g op).rate_tracking := by
  cases op with
  | create creds newId now => exact create_session_sameKeys g creds newId now h
  | validate sid now => exact validate_session_sameKeys g sid now h
  | track sid ty now =>
    dsimp only [step, track_interaction]
    apply track_after_sameKeys _ _ _ _ _ (validate_session_sameKeys g sid now h)
    intro s hs
    rw [validate_session_some_find g sid now s hs]
    rfl
  | applyRL sid now =>
    dsimp only [step, apply_rate_limiting]
    apply apply_after_sameKeys _ _ _ _ (validate_session_sameKeys g sid now h)
    intro s hs
    rw [validate_session_some_find g sid now s hs]
    rfl
  | cleanup now => exact cleanup_sameKeys g now h
  | extend sid horas now =>
    dsimp only [step, extend_session]
    apply extend_after_sameKeys _ _ _ _ _ (validate_session_sameKeys g sid now h)
    intro s hs
    rw [validate_session_some_find g sid now s hs]
    rfl
  | stats => exact h

theorem step_counterOK (g : GestorSesiones) (op : Op) (h : counterOK g) :
    counterOK (step g op) := by
  cases op with
  | create creds newId now => exact create_session_counterOK g creds newId now h
  | validate sid now => exact validate_session_counterOK g sid now h
  | track sid ty now =>
    dsimp only [step, track_interaction]
    apply track_after_counterOK _ _ _ _ _ (validate_session_counterOK g sid now h)
    intro s hs
    exact validate_session_some_find g sid now s hs
  | applyRL sid now =>
    dsimp only [step, apply_rate_limiting]
    exact apply_after_counterOK _ _ _ _ (validate_session_counterOK g sid now h)
  | cleanup now => exact cleanup_counterOK g now h
  | extend sid horas now =>
    dsimp only [step, extend_session]
    apply extend_after_counterOK _ _ _ _ _ (validate_session_counterOK g sid now h)
    intro s hs
    exact validate_session_some_find g sid now s hs
  | stats => exact h

theorem step_max (g : GestorSesiones) (op : Op) :
    (step g op).max_interactions = g.max_interactions := by
  cases op with
  | create creds newId now => rfl
  | validate sid now => exact validate_session_max g sid now
  | track sid ty now =>
    dsimp only [step, track_interaction]
    rw [track_after_max]
    exact validate_session_max g sid now
  | applyRL sid now =>
    dsimp only [step, apply_rate_limiting]
    rw [apply_after_max]
    exact validate_session_max g sid now
  | cleanup now => rfl
  | extend sid horas now =>
    dsimp only [step, extend_session]
    rw [extend_after_max]
    exact validate_session_max g sid now
  | stats => rfl

theorem run_sameKeys (ops : List Op) (g : GestorSesiones)
    (h : sameKeys g.sessions g.rate_tracking) :
    sameKeys (run g ops).sessions (run g ops).rate_tracking := by
  induction ops generalizing g with
  | nil => exact h
  | cons op t ih => exact ih (step g op) (step_sameKeys g op h)

theorem run_counterOK (ops : List Op) (g : GestorSesiones) (h : counterOK g) :
    counterOK (run g ops) := by
  induction ops generalizing g with
  | nil => exact h
  | cons op t ih => exact ih (step g op) (step_counterOK g op h)

theorem run_max (ops : List Op) (g : GestorSesiones) :
    (run g ops).max_interactions = g.max_interactions := by
  induction ops generalizing g with
  | nil => rfl
  | cons op t ih =>
    rw [show run g (op :: t) = run (step g op) t from rfl, ih, step_max]

/-! Lemmas for the single-session rate-limit scenario. -/

theorem AList.insert_singleton_self {α : Type} (sid : String) (x y : α) :
    AList.insert [(sid, x)] sid y = [(sid, y)] := by
  simp [AList.insert, AList.erase, List.filter_cons]

theorem AList.erase_singleton_self {α : Type} (sid : String) (x : α) :
    AList.erase [(sid, x)] sid = [] := by
  simp [AList.erase, List.filter_cons]

theorem AList.find?_singleton_self {α : Type} (sid : String) (x : α) :
    AList.find? [(sid, x)] sid = some x := by
  rw [AList.find?_cons, if_pos rfl]

theorem filter_replicate_of_pos {α : Type} (p : α → Bool) (a : α)
    (h : p a = true) (n : Nat) :
    (List.replicate n a).filter p = List.replicate n a := by
  induction n with
  | zero => rfl
  | succ n ih => rw [List.replicate_succ, List.filter_cons, if_pos h, ih]

theorem validate_session_valid_eq (g : GestorSesiones) (sid : String) (now : Int)
    (s : Sesion) (hf : AList.find? g.sessions sid = some s)
    (hv : (es_valida s now).1 = true) :
    validate_session g sid now =
      (some s, { g with sessions := AList.insert g.sessions sid s }) := by
  rcases validate_session_spec g sid now with ⟨h1, _⟩ | ⟨s0, h1, hv0, h2⟩ | ⟨s0, h1, hv0, h2⟩
  · rw [hf] at h1
    cases h1
  · rw [hf] at h1
    injection h1 with h1
    rw [← h1] at hv0
    rw [hv] at hv0
    cases hv0
  · rw [hf] at h1
    injection h1 with h1
    rw [← h1] at h2
    exact h2

theorem sesK_valida (uid sid : String) (t : Int) (k : Nat) :
    es_valida (sesK uid sid t k) t = (true, sesK uid sid t k) := by
  have h1 : ¬ (sesK uid sid t k).expira_en < t := by
    dsimp only [sesK]
    omega
  have h2 : (sesK uid sid t k).estado = EstadoSesion.ACTIVA := rfl
  rw [es_valida, if_neg h1, if_pos h2]

theorem gesK_validate (mx N : Nat) (uid sid : String) (t : Int) (k : Nat) :
    validate_session (gesK mx N uid sid t k) sid t =
      (some (sesK uid sid t k), gesK mx N uid sid t k) := by
  have hf : AList.find? (gesK mx N uid sid t k).sessions sid =
      some (sesK uid sid t k) := AList.find?_singleton_self sid _
  have hv : (es_valida (sesK uid sid t k) t).1 = true := by
    rw [sesK_valida]
  rw [validate_session_valid_eq _ sid t _ hf hv]
  dsimp only [gesK]
  rw [AList.insert_singleton_self]

theorem gesK_check (mx N : Nat) (uid sid : String) (t : Int) (k : Nat) :
    check_rate_limit (gesK mx N uid sid t k) sid t =
      (decide (k < N), gesK mx N uid sid t k) := by
  have hfilter : (List.replicate k t).filter (fun r => decide (t - 60 < r)) =
      List.replicate k t :=
    filter_replicate_of_pos (fun r => decide (t - 60 < r)) t
      (decide_eq_true (by omega)) k
  dsimp only [check_rate_limit, gesK]
  rw [AList.find?_singleton_self]
  dsimp only [Option.getD]
  rw [hfilter, AList.insert_singleton_self, List.length_replicate]

theorem gesK_track (mx N : Nat) (uid sid : String) (t : Int) (k : Nat)
    (hk : k < N) (hkm : k < mx) :
    track_interaction (gesK mx N uid sid t k) sid "chat" t =
      (.accepted, gesK mx N uid sid t (k + 1)) := by
  have hm : (gesK mx N uid sid t k).max_interactions = mx := rfl
  have hincr : incrementar_interaccion (sesK uid sid t k) mx t =
      (true, { sesK uid sid t k with
                 contador_interacciones := k + 1, ultima_actividad := t }) := by
    have hc : (sesK uid sid t k).contador_interacciones = k := rfl
    rw [incrementar_interaccion, hc, if_neg (by omega)]
  have hstr : ("last_" ++ "chat" : String) = "last_chat" := rfl
  have hmeta : agregar_metadatos
      { sesK uid sid t k with contador_interacciones := k + 1, ultima_actividad := t }
      "last_chat" t = sesK uid sid t (k + 1) := by
    dsimp only [agregar_metadatos, sesK]
    by_cases hk0 : k = 0
    · simp [hk0, AList.insert, AList.erase]
    · simp [hk0, AList.insert_singleton_self]
  dsimp only [track_interaction]
  rw [gesK_validate]
  dsimp only [track_after]
  rw [gesK_check]
  dsimp only
  rw [if_neg (by simp [decide_eq_true hk]), hm, hincr]
  dsimp only
  rw [if_neg (by simp), hstr, hmeta]
  dsimp only [gesK]
  rw [AList.find?_singleton_self]
  dsimp only [Option.getD]
  rw [AList.insert_singleton_self, AList.insert_singleton_self,
      ← List.replicate_succ']

theorem create_gesK (mx N : Nat) (uid sid : String) (t : Int) :
    (create_session (GestorSesiones.init mx N) [("user_id", uid)] sid t).2 =
      gesK mx N uid sid t 0 := by
  dsimp only [create_session, GestorSesiones.init, Sesion.new, gesK, sesK]
  rw [AList.find?_singleton_self]
  rfl

theorem trackN_gesK (mx N : Nat) (uid sid : String) (t : Int) (hNm : N ≤ mx)
    (k : Nat) (hk : k ≤ N) :
    trackN (gesK mx N uid sid t 0) sid t k = gesK mx N uid sid t k := by
  induction k with
  | zero => rfl
  | succ k ih =>
    have hkN : k < N := hk
    dsimp only [trackN]
    rw [ih (Nat.le_of_succ_le hk),
        gesK_track mx N uid sid t k hkN (Nat.lt_of_lt_of_le hkN hNm)]

theorem gesK_track_limit (mx N : Nat) (uid sid : String) (t : Int) :
    track_interaction (gesK mx N uid sid t N) sid "chat" t =
      (.rate_limited,
       { sessions := [(sid, { sesK uid sid t N with
                                estado := .LIMITADA_POR_VELOCIDAD })]
         max_interactions := mx
         rate_limit_per_minute := N
         rate_tracking := [(sid, List.replicate N t)] }) := by
  dsimp only [track_interaction]
  rw [gesK_validate]
  dsimp only [track_after]
  rw [gesK_check]
  dsimp only
  rw [if_pos (decide_eq_false (by omega))]
  dsimp only [gesK]
  rw [AList.insert_singleton_self]

theorem gesLim_track (mx N : Nat) (uid sid : String) (t u : Int) :
    (track_interaction
      { sessions := [(sid, { sesK uid sid t N with
                               estado := .LIMITADA_POR_VELOCIDAD })]
        max_interactions := mx
        rate_limit_per_minute := N
        rate_tracking := [(sid, List.replicate N t)] } sid "chat" u).1 =
      .invalid_session ∧
    AList.find? (track_interaction
      { sessions := [(sid, { sesK uid sid t N with
                               estado := .LIMITADA_POR_VELOCIDAD })]
        max_interactions := mx
        rate_limit_per_minute := N
        rate_tracking := [(sid, List.replicate N t)] } sid "chat" u).2.sessions sid =
      none := by
  have hf : AList.find?
      ({ sessions := [(sid, { sesK uid sid t N with
                                estado := .LIMITADA_POR_VELOCIDAD })]
         max_interactions := mx
         rate_limit_per_minute := N
         rate_tracking := [(sid, List.replicate N t)] } : GestorSesiones).sessions sid =
      some { sesK uid sid t N with estado := .LIMITADA_POR_VELOCIDAD } :=
    AList.find?_singleton_self sid _
  have hv : (es_valida { sesK uid sid t N with
      estado := EstadoSesion.LIMITADA_POR_VELOCIDAD } u).1 = false := by
    rw [es_valida]
    by_cases hx : ({ sesK uid sid t N with
        estado := EstadoSesion.LIMITADA_POR_VELOCIDAD } : Sesion).expira_en < u
    · rw [if_pos hx]
    · rw [if_neg hx,
          if_neg (fun hc => EstadoSesion.noConfusion
            (show EstadoSesion.LIMITADA_POR_VELOCIDAD = EstadoSesion.ACTIVA from hc))]
  have hval := validate_session_spec
    ({ sessions := [(sid, { sesK uid sid t N with
                              estado := .LIMITADA_POR_VELOCIDAD })]
       max_interactions := mx
       rate_limit_per_minute := N
       rate_tracking := [(sid, List.replicate N t)] } : GestorSesiones) sid u
  rcases hval with ⟨h1, _⟩ | ⟨s0, h1, hv0, hh⟩ | ⟨s0, h1, hv0, hh⟩
  · rw [hf] at h1
    cases h1
  · dsimp only [track_interaction]
    rw [hh]
    refine ⟨rfl, ?_⟩
    dsimp only [track_after]
    rw [AList.erase_singleton_self, AList.find?_nil]
  · rw [hf] at h1
    injection h1 with h1
    rw [← h1] at hv0
    rw [hv] at hv0
    cases hv0

/-- C3 (amended): with `rate_limit_per_minute = N` and `N ≤
max_interactions`, `N+1` same-instant `track_interaction` calls on a
fresh session accept the first `N` and reject the `(N+1)`th as
rate-limited without incrementing the counter; but — correcting the
original claim — that rejection also parks the session in the terminal
status `LIMITADA_POR_VELOCIDAD`, so after the clock advances past the
60-second window the next call is rejected as `invalid_session` and the
session is evicted, rather than being accepted again. -/
theorem C3_rate_limit_behaviour (mx N : Nat) (uid sid : String) (t : Int)
    (_hN : 1 ≤ N) (hNm : N ≤ mx) :
    (∀ k, k < N →
      (track_interaction (trackN ((create_session (GestorSesiones.init mx N)
          [("user_id", uid)] sid t).2) sid t k) sid "chat" t).1 = .accepted) ∧
    ((track_interaction (trackN ((create_session (GestorSesiones.init mx N)
          [("user_id", uid)] sid t).2) sid t N) sid "chat" t).1 = .rate_limited) ∧
    ((AList.find? (track_interaction (trackN ((create_session (GestorSesiones.init mx N)
          [("user_id", uid)] sid t).2) sid t N) sid "chat" t).2.sessions sid).map
        (fun s => (s.contador_interacciones, s.estado)) =
      some (N, .LIMITADA_POR_VELOCIDAD)) ∧
    (∀ u, t + 60 < u →
      (track_interaction (track_interaction (trackN ((create_session
          (GestorSesiones.init mx N) [("user_id", uid)] sid t).2) sid t N)
          sid "chat" t).2 sid "chat" u).1 = .invalid_session ∧
      AList.find? (track_interaction (track_interaction (trackN ((create_session
          (GestorSesiones.init mx N) [("user_id", uid)] sid t).2) sid t N)
          sid "chat" t).2 sid "chat" u).2.sessions sid = none) := by
  rw [create_gesK]
  refine ⟨?_, ?_, ?_, ?_⟩
  · intro k hk
    rw [trackN_gesK mx N uid sid t hNm k (Nat.le_of_lt hk),
        gesK_track mx N uid sid t k hk (Nat.lt_of_lt_of_le hk hNm)]
  · rw [trackN_gesK mx N uid sid t hNm N (Nat.le_refl N), gesK_track_limit]
  · rw [trackN_gesK mx N uid sid t hNm N (Nat.le_refl N), gesK_track_limit]
    dsimp only
    rw [AList.find?_singleton_self]
    rfl
  · intro u hu
    rw [trackN_gesK mx N uid sid t hNm N (Nat.le_refl N), gesK_track_limit]
    exact gesLim_track mx N uid sid t u

/-- C3 witness: the scenario with limit 1 and cap 50 on a session
created at instant 0, the post-window call made at any instant past 60. -/
theorem C3_witness :
    1 ≤ 1 ∧ 1 ≤ 50 ∧
    ((∀ k, k < 1 →
      (track_interaction (trackN ((create_session (GestorSesiones.init 50 1)
          [("user_id", "u")] "s" 0).2) "s" 0 k) "s" "chat" 0).1 = .accepted) ∧
    ((track_interaction (trackN ((create_session (GestorSesiones.init 50 1)
          [("user_id", "u")] "s" 0).2) "s" 0 1) "s" "chat" 0).1 = .rate_limited) ∧
    ((AList.find? (track_interaction (trackN ((create_session (GestorSesiones.init 50 1)
          [("user_id", "u")] "s" 0).2) "s" 0 1) "s" "chat" 0).2.sessions "s").map
        (fun s => (s.contador_interacciones, s.estado)) =
      some (1, .LIMITADA_POR_VELOCIDAD)) ∧
    (∀ u, (0 : Int) + 60 < u →
      (track_interaction (track_interaction (trackN ((create_session
          (GestorSesiones.init 50 1) [("user_id", "u")] "s" 0).2) "s" 0 1)
          "s" "chat" 0).2 "s" "chat" u).1 = .invalid_session ∧
      AList.find? (track_interaction (track_interaction (trackN ((create_session
          (GestorSesiones.init 50 1) [("user_id", "u")] "s" 0).2) "s" 0 1)
          "s" "chat" 0).2 "s" "chat" u).2.sessions "s" = none)) :=
  ⟨Nat.le_refl 1, by decide,
   C3_rate_limit_behaviour 50 1 "u" "s" 0 (Nat.le_refl 1) (by decide)⟩

/-! Claim theorems: lock discipline, creation, validation, the session
state machine, and the debounce variant. -/

/-- C1: the claim that every public Manager operation returns fails on
the code: `track_interaction`, `apply_rate_limiting` and
`extend_session` invoke the public `validate_session` while already
holding the manager's single non-reentrant lock, so the nested acquire
blocks forever; from an unlocked start those three calls never return,
while the operations without a nested public call do complete. -/
theorem C1_nested_lock_blocks (g : GestorSesiones) (sid ty : String)
    (creds : AList String) (newId : String) (horas : Nat) (now : Int) :
    track_interactionL g sid ty now false = none ∧
    apply_rate_limitingL g sid now false = none ∧
    extend_sessionL g sid horas now false = none ∧
    (create_sessionL g creds newId now false).isSome = true ∧
    (validate_sessionL g sid now false).isSome = true ∧
    (cleanup_expired_sessionsL g now false).isSome = true ∧
    (get_session_statsL g false).isSome = true := by
  simp [track_interactionL, apply_rate_limitingL, extend_sessionL,
        create_sessionL, validate_sessionL, cleanup_expired_sessionsL,
        get_session_statsL, withLock]

/-- C2: `create_session` (total in the embedding, mirroring that the
code raises nothing) returns a session with status `ACTIVA` carrying the
freshly allocated id, stores it in the registry under that id together
with an empty rate window, and — the id being fresh on both indexes, as
`uuid4` provides — extends both indexes by exactly that entry. -/
theorem C2_create_session (g : GestorSesiones) (creds : AList String)
    (newId : String) (now : Int)
    (hfresh : AList.find? g.sessions newId = none)
    (hfresh2 : AList.find? g.rate_tracking newId = none) :
    (create_session g creds newId now).1.estado = .ACTIVA ∧
    (create_session g creds newId now).1.id = newId ∧
    AList.find? (create_session g creds newId now).2.sessions newId =
      some (create_session g creds newId now).1 ∧
    AList.find? (create_session g creds newId now).2.rate_tracking newId = some [] ∧
    (create_session g creds newId now).2.sessions =
      g.sessions ++ [(newId, (create_session g creds newId now).1)] ∧
    (create_session g creds newId now).2.rate_tracking =
      g.rate_tracking ++ [(newId, [])] := by
  refine ⟨rfl, rfl, ?_, ?_, ?_, ?_⟩
  · simp [create_session, AList.find?_insert_self]
  · simp [create_session, AList.find?_insert_self]
  · simp [create_session, AList.insert, AList.erase_of_find?_none _ _ hfresh]
  · simp [create_session, AList.insert, AList.erase_of_find?_none _ _ hfresh2]

/-- C2 witness: instantiation on the freshly initialised manager. -/
theorem C2_create_session_witness :
    AList.find? (GestorSesiones.init 50 10).sessions "s" = none ∧
    AList.find? (GestorSesiones.init 50 10).rate_tracking "s" = none ∧
    ((create_session (GestorSesiones.init 50 10) [("user_id", "u")] "s" 0).1.estado
        = .ACTIVA ∧
     (create_session (GestorSesiones.init 50 10) [("user_id", "u")] "s" 0).1.id = "s" ∧
     AList.find? (create_session (GestorSesiones.init 50 10)
        [("user_id", "u")] "s" 0).2.sessions "s" =
       some (create_session (GestorSesiones.init 50 10) [("user_id", "u")] "s" 0).1 ∧
     AList.find? (create_session (GestorSesiones.init 50 10)
        [("user_id", "u")] "s" 0).2.rate_tracking "s" = some [] ∧
     (create_session (GestorSesiones.init 50 10) [("user_id", "u")] "s" 0).2.sessions =
       (GestorSesiones.init 50 10).sessions ++
         [("s", (create_session (GestorSesiones.init 50 10) [("user_id", "u")] "s" 0).1)] ∧
     (create_session (GestorSesiones.init 50 10) [("user_id", "u")] "s" 0).2.rate_tracking =
       (GestorSesiones.init 50 10).rate_tracking ++ [("s", [])]) :=
  ⟨rfl, rfl, C2_create_session (GestorSesiones.init 50 10) [("user_id", "u")] "s" 0 rfl rfl⟩

/-- C6: for an id stored in the registry whose session reports invalid
at validation time (in particular a time-expired one), `validate_session`
signals not-found and deletes both the registry entry and the rate
window; and a session returned as valid is never time-expired. -/
theorem C6_validate_evicts_invalid :
    (∀ (g : GestorSesiones) (sid : String) (now : Int) (s : Sesion),
      AList.find? g.sessions sid = some s →
      (es_valida s now).1 = false →
        (validate_session g sid now).1 = none ∧
        AList.find? (validate_session g sid now).2.sessions sid = none ∧
        AList.find? (validate_session g sid now).2.rate_tracking sid = none) ∧
    (∀ (g : GestorSesiones) (sid : String) (now : Int) (s' : Sesion),
      (validate_session g sid now).1 = some s' → ¬ s'.expira_en < now) := by
  constructor
  · intro g sid now s hf hv
    rcases validate_session_spec g sid now with ⟨h1, _⟩ | ⟨s0, _, _, h2⟩ | ⟨s0, h1, hv0, _⟩
    · rw [hf] at h1
      cases h1
    · rw [h2]
      exact ⟨rfl, by simp [AList.find?_erase_self], by simp [AList.find?_erase_self]⟩
    · rw [hf] at h1
      injection h1 with h1
      rw [← h1] at hv0
      rw [hv] at hv0
      cases hv0
  · intro g sid now s' hsome
    rcases validate_session_spec g sid now with ⟨_, h2⟩ | ⟨s0, _, _, h2⟩ | ⟨s0, _, hv0, h2⟩
    · rw [h2] at hsome
      cases hsome
    · rw [h2] at hsome
      cases hsome
    · rw [h2] at hsome
      injection hsome with hs
      rw [← hs]
      exact (es_valida_true hv0).2.2

/-- C6 witness: the time-expired session of `gesExpirado` at instant
30000 is reported not-found and removed from both indexes. -/
theorem C6_witness :
    AList.find? gesExpirado.sessions "s" = some (Sesion.new "u" "s" 0) ∧
    (es_valida (Sesion.new "u" "s" 0) 30000).1 = false ∧
    ((validate_session gesExpirado "s" 30000).1 = none ∧
     AList.find? (validate_session gesExpirado "s" 30000).2.sessions "s" = none ∧
     AList.find? (validate_session gesExpirado "s" 30000).2.rate_tracking "s" = none) :=
  ⟨by decide, by decide,
   C6_validate_evicts_invalid.1 gesExpirado "s" 30000 (Sesion.new "u" "s" 0)
     (by decide) (by decide)⟩

/-- C9: the debounce variant's too-fast test uses the `seconds`
component of the Python timedelta rather than its total duration, so a
request arriving one day and one second after the last recorded
interaction (elapsed 86401 s, far beyond the 2 s debounce) is still
flagged as too fast — the code disagrees with the claimed "elapsed time
less than 2 seconds" rule. -/
theorem C9_seconds_component_bug :
    App.apply_rate_limit
      (App.push_turn { turns := [], last_interaction := none } "q" "a" 0).last_interaction
      86401 = true ∧
    ¬ ((86401 : Int) - 0 < 2) := by
  exact ⟨rfl, by decide⟩

/-- C10: `es_valida` on a time-expired session returns false and marks
it `EXPIRADA`; every later call returns false again and leaves the
session exactly as it was — idempotence after the first transition. -/
theorem C10_es_valida_idempotent (s : Sesion) (now1 now2 : Int)
    (hexp : s.expira_en < now1) :
    (es_valida s now1).1 = false ∧
    (es_valida s now1).2 = { s with estado := .EXPIRADA } ∧
    (es_valida (es_valida s now1).2 now2).1 = false ∧
    (es_valida (es_valida s now1).2 now2).2 = (es_valida s now1).2 := by
  have h1 : es_valida s now1 = (false, { s with estado := .EXPIRADA }) := by
    simp [es_valida, hexp]
  rw [h1]
  by_cases h2 : ({ s with estado := EstadoSesion.EXPIRADA } : Sesion).expira_en < now2 <;>
    simp [es_valida, h2]

/-- C10 witness: a session created at instant 0 (expiry 28800) validated
at 30000 and revalidated at 40000. -/
theorem C10_witness :
    (Sesion.new "u" "s" 0).expira_en < 30000 ∧
    ((es_valida (Sesion.new "u" "s" 0) 30000).1 = false ∧
     (es_valida (Sesion.new "u" "s" 0) 30000).2 =
       { Sesion.new "u" "s" 0 with estado := .EXPIRADA } ∧
     (es_valida (es_valida (Sesion.new "u" "s" 0) 30000).2 40000).1 = false ∧
     (es_valida (es_valida (Sesion.new "u" "s" 0) 30000).2 40000).2 =
       (es_valida (Sesion.new "u" "s" 0) 30000).2) :=
  ⟨by decide, C10_es_valida_idempotent (Sesion.new "u" "s" 0) 30000 40000 (by decide)⟩

/-- C3 counterexample: with `rate_limit_per_minute = 1`, two calls at
instant 0 give `accepted` then `rate_limited`; after the clock advances
to instant 100 (the only window timestamp, 0, is more than 60 s old) the
next call is not accepted again: the rate-limit rejection left the
session in terminal status `LIMITADA_POR_VELOCIDAD`, so the third call
reports `invalid_session` and evicts the session. -/
theorem C3_counterexample :
    (track_interaction (trackN ((create_session (GestorSesiones.init 50 1)
        [("user_id", "u")] "s" 0).2) "s" 0 0) "s" "chat" 0).1 = .accepted ∧
    (track_interaction (trackN ((create_session (GestorSesiones.init 50 1)
        [("user_id", "u")] "s" 0).2) "s" 0 1) "s" "chat" 0).1 = .rate_limited ∧
    (track_interaction ((track_interaction (trackN ((create_session
        (GestorSesiones.init 50 1) [("user_id", "u")] "s" 0).2) "s" 0 1)
        "s" "chat" 0).2) "s" "chat" 100).1 = .invalid_session ∧
    AList.find? (track_interaction ((track_interaction (trackN ((create_session
        (GestorSesiones.init 50 1) [("user_id", "u")] "s" 0).2) "s" 0 1)
        "s" "chat" 0).2) "s" "chat" 100).2.sessions "s" = none := by
  refine ⟨by decide, by decide, by decide, by decide⟩

/-- C4 counterexample: `cleanup_expired_sessions` also removes sessions
that are invalid for a reason other than time expiry: at instant 0 the
stored session `"s"` of `gesMixto` has `expira_en = 100`, which is not
in the past, yet it is removed because its status is
`LIMITADA_POR_VELOCIDAD` — so the removed set is not exactly the
sessions whose expiry lies before the current time. -/
theorem C4_counterexample :
    AList.find? gesMixto.sessions "s" = some sesLimitada ∧
    ¬ sesLimitada.expira_en < 0 ∧
    AList.find? (cleanup_expired_sessions gesMixto 0).2.sessions "s" = none ∧
    (cleanup_expired_sessions gesMixto 0).1 = 1 := by
  refine ⟨by decide, by decide, by decide, by decide⟩

/-- C5 counterexample: with `max_interactions = 1`, one accepted call
brings the counter to the maximum while the status is still `ACTIVA`,
so reaching the cap does not itself move the session to `RateLimited`
(the transition only happens on the next attempted increment). -/
theorem C5_counterexample :
    ((AList.find? (track_interaction ((create_session (GestorSesiones.init 1 10)
        [("user_id", "u")] "s" 0).2) "s" "chat" 0).2.sessions "s").map
      (fun s => (s.contador_interacciones, s.estado))) = some (1, .ACTIVA) ∧
    (GestorSesiones.init 1 10).max_interactions = 1 := by
  refine ⟨by decide, by decide⟩

/-- C7: starting from a freshly initialised manager, after any sequence
of public operations the registry and the rate-window index hold exactly
the same key set — every stored session id has a window entry and every
window entry has a stored session. -/
theorem C7_registry_window_pairing (mx lim : Nat) (ops : List Op) :
    sameKeys (run (GestorSesiones.init mx lim) ops).sessions
      (run (GestorSesiones.init mx lim) ops).rate_tracking := by
  apply run_sameKeys
  intro k
  rfl

/-- C5 (amended): in every state reachable by public operations from a
fresh manager, each stored session's `contador_interacciones` is at most
`max_interactions`, and once it equals the maximum no further increment
ever occurs — the increment call refuses, leaves the counter unchanged,
and only then moves the status to `LIMITADA_POR_VELOCIDAD` (the status
does not change at the instant the cap is reached, which corrects the
original claim — see the counterexample). -/
theorem C5_counter_invariant (mx lim : Nat) (ops : List Op) (sid : String)
    (s : Sesion) (now : Int)
    (hf : AList.find? (run (GestorSesiones.init mx lim) ops).sessions sid = some s) :
    s.contador_interacciones ≤ mx ∧
    (mx ≤ s.contador_interacciones →
      (incrementar_interaccion s mx now).1 = false ∧
      (incrementar_interaccion s mx now).2.contador_interacciones =
        s.contador_interacciones ∧
      (incrementar_interaccion s mx now).2.estado = .LIMITADA_POR_VELOCIDAD) := by
  have h0 : counterOK (GestorSesiones.init mx lim) := by
    intro sid2 s2 hf2
    simp [GestorSesiones.init, AList.find?_nil] at hf2
  have h1 := run_counterOK ops _ h0 sid s hf
  rw [run_max] at h1
  refine ⟨h1, fun hmx => ⟨?_, ?_, ?_⟩⟩ <;> simp [incrementar_interaccion, hmx]

/-- C5 witness: after creating a session and tracking one interaction
under `max_interactions = 1`, the stored counter is 1 = max and no
further increment is possible. -/
theorem C5_witness :
    AList.find? (run (GestorSesiones.init 1 10)
        [Op.create [("user_id", "u")] "s" 0, Op.track "s" "chat" 0]).sessions "s" =
      some ⟨"s", "u", 0, 28800, 1, .ACTIVA, 0, [("last_chat", 0)]⟩ ∧
    ((⟨"s", "u", 0, 28800, 1, .ACTIVA, 0, [("last_chat", 0)]⟩ :
        Sesion).contador_interacciones ≤ 1 ∧
     (1 ≤ (⟨"s", "u", 0, 28800, 1, .ACTIVA, 0, [("last_chat", 0)]⟩ :
        Sesion).contador_interacciones →
       (incrementar_interaccion
           ⟨"s", "u", 0, 28800, 1, .ACTIVA, 0, [("last_chat", 0)]⟩ 1 50).1 = false ∧
       (incrementar_interaccion
           ⟨"s", "u", 0, 28800, 1, .ACTIVA, 0, [("last_chat", 0)]⟩ 1 50).2.contador_interacciones =
         (⟨"s", "u", 0, 28800, 1, .ACTIVA, 0, [("last_chat", 0)]⟩ :
           Sesion).contador_interacciones ∧
       (incrementar_interaccion
           ⟨"s", "u", 0, 28800, 1, .ACTIVA, 0, [("last_chat", 0)]⟩ 1 50).2.estado =
         .LIMITADA_POR_VELOCIDAD)) :=
  ⟨by decide,
   C5_counter_invariant 1 10 [Op.create [("user_id", "u")] "s" 0, Op.track "s" "chat" 0]
     "s" ⟨"s", "u", 0, 28800, 1, .ACTIVA, 0, [("last_chat", 0)]⟩ 50 (by decide)⟩

theorem AList.mem_map_fst_filter {α : Type} (m : AList α) (k : String)
    (pred : String × α → Bool) (hnd : (AList.keys m).Nodup) :
    k ∈ (m.filter pred).map Prod.fst ↔
      ∃ v, AList.find? m k = some v ∧ pred (k, v) = true := by
  constructor
  · intro hmem
    rcases List.mem_map.mp hmem with ⟨q, hq, hk⟩
    rcases List.mem_filter.mp hq with ⟨hqm, hqp⟩
    have hqe : q = (k, q.2) := by
      rw [← hk]
    refine ⟨q.2, ?_, ?_⟩
    · exact AList.find?_eq_some_of_mem hnd (hqe ▸ hqm)
    · rw [← hqe]
      exact hqp
  · rintro ⟨v, hfv, hp⟩
    exact List.mem_map_of_mem Prod.fst
      (List.mem_filter.mpr ⟨AList.mem_of_find?_eq_some hfv, hp⟩)

/-- C4 (amended): `cleanup_expired_sessions` removes exactly the
sessions that report invalid — the time-expired ones and also those in a
non-`ACTIVA` status, which corrects the original "exactly the sessions
whose `expires_at` is before now" (see the counterexample); every valid
session and its rate window stay untouched, the returned count is the
number of invalid sessions, and the registry and rate-window index stay
paired after the call. -/
theorem C4_cleanup_exact (g : GestorSesiones) (now : Int)
    (hnd : (AList.keys g.sessions).Nodup)
    (hpair : sameKeys g.sessions g.rate_tracking) :
    (∀ sid s, AList.find? g.sessions sid = some s → (es_valida s now).1 = true →
        AList.find? (cleanup_expired_sessions g now).2.sessions sid = some s ∧
        AList.find? (cleanup_expired_sessions g now).2.rate_tracking sid =
          AList.find? g.rate_tracking sid) ∧
    (∀ sid s, AList.find? g.sessions sid = some s → (es_valida s now).1 = false →
        AList.find? (cleanup_expired_sessions g now).2.sessions sid = none ∧
        AList.find? (cleanup_expired_sessions g now).2.rate_tracking sid = none) ∧
    (cleanup_expired_sessions g now).1 =
      (g.sessions.filter (fun p => decide ((es_valida p.2 now).1 = false))).length ∧
    sameKeys (cleanup_expired_sessions g now).2.sessions
      (cleanup_expired_sessions g now).2.rate_tracking := by
  refine ⟨?_, ?_, ?_, cleanup_sameKeys g now hpair⟩
  · intro sid s hf hv
    have hnot : sid ∉ (g.sessions.filter
        (fun p => decide ((es_valida p.2 now).1 = false))).map Prod.fst := by
      intro hmem
      rcases (AList.mem_map_fst_filter g.sessions sid _ hnd).mp hmem with ⟨v, hfv, hpv⟩
      rw [hf] at hfv
      injection hfv with hfv
      rw [← hfv, decide_eq_true_eq, hv] at hpv
      cases hpv
    constructor
    · dsimp only [cleanup_expired_sessions]
      rw [AList.find?_foldl_erase, if_neg hnot]
      exact hf
    · dsimp only [cleanup_expired_sessions]
      rw [AList.find?_foldl_erase, if_neg hnot]
  · intro sid s hf hv
    have hmem : sid ∈ (g.sessions.filter
        (fun p => decide ((es_valida p.2 now).1 = false))).map Prod.fst :=
      (AList.mem_map_fst_filter g.sessions sid _ hnd).mpr
        ⟨s, hf, by rw [decide_eq_true_eq]; exact hv⟩
    constructor <;>
      · dsimp only [cleanup_expired_sessions]
        rw [AList.find?_foldl_erase, if_pos hmem]
  · dsimp only [cleanup_expired_sessions]
    rw [List.length_map]

theorem gesMixto_sameKeys : sameKeys gesMixto.sessions gesMixto.rate_tracking := by
  intro k
  by_cases h1 : "a" = k <;> by_cases h2 : "s" = k <;>
    simp [gesMixto, AList.find?_cons, AList.find?_nil, h1, h2]

/-- C4 witness: the cleanup behaviour instantiated on `gesMixto` (one
valid, one status-limited session) at instant 0. -/
theorem C4_witness :
    (AList.keys gesMixto.sessions).Nodup ∧
    sameKeys gesMixto.sessions gesMixto.rate_tracking ∧
    ((∀ sid s, AList.find? gesMixto.sessions sid = some s → (es_valida s 0).1 = true →
        AList.find? (cleanup_expired_sessions gesMixto 0).2.sessions sid = some s ∧
        AList.find? (cleanup_expired_sessions gesMixto 0).2.rate_tracking sid =
          AList.find? gesMixto.rate_tracking sid) ∧
     (∀ sid s, AList.find? gesMixto.sessions sid = some s → (es_valida s 0).1 = false →
        AList.find? (cleanup_expired_sessions gesMixto 0).2.sessions sid = none ∧
        AList.find? (cleanup_expired_sessions gesMixto 0).2.rate_tracking sid = none) ∧
     (cleanup_expired_sessions gesMixto 0).1 =
       (gesMixto.sessions.filter (fun p => decide ((es_valida p.2 0).1 = false))).length ∧
     sameKeys (cleanup_expired_sessions gesMixto 0).2.sessions
       (cleanup_expired_sessions gesMixto 0).2.rate_tracking) :=
  ⟨by decide, gesMixto_sameKeys, C4_cleanup_exact gesMixto 0 (by decide) gesMixto_sameKeys⟩

/-- C8 (amended): for a valid stored session, `apply_rate_limiting`
appends nothing: the probed session's window is replaced by its
60-second pruning (a genuine side effect on stale entries, which
corrects the "leaves the rate-window index unchanged" wording — see the
counterexample) while the registry is pointwise unchanged and every
other window untouched.  The decision uses the same pruned
sliding-window count that `track_interaction` branches on: `allowed`
exactly when the count is below the limit; when refused, `retry_after`
is the whole number of seconds until the next wall-clock minute and
`current_count` the pruned count; when allowed, `remaining` is the
limit minus the count. -/
theorem C8_probe_semantics (g : GestorSesiones) (sid : String) (now : Int)
    (s : Sesion) (hf : AList.find? g.sessions sid = some s)
    (hv : (es_valida s now).1 = true) :
    (∀ k, AList.find? (apply_rate_limiting g sid now).2.sessions k =
       AList.find? g.sessions k) ∧
    AList.find? (apply_rate_limiting g sid now).2.rate_tracking sid =
      some (prunedWindow g sid now) ∧
    (∀ k, k ≠ sid → AList.find? (apply_rate_limiting g sid now).2.rate_tracking k =
       AList.find? g.rate_tracking k) ∧
    (apply_rate_limiting g sid now).1.allowed =
      decide ((prunedWindow g sid now).length < g.rate_limit_per_minute) ∧
    ((apply_rate_limiting g sid now).1.allowed = false →
      (apply_rate_limiting g sid now).1.retry_after = some (60 - now % 60) ∧
      (apply_rate_limiting g sid now).1.current_count =
        some (prunedWindow g sid now).length ∧
      (apply_rate_limiting g sid now).1.reason = some "rate_limit_exceeded") ∧
    ((apply_rate_limiting g sid now).1.allowed = true →
      (apply_rate_limiting g sid now).1.remaining =
        some (g.rate_limit_per_minute - (prunedWindow g sid now).length)) ∧
    ((track_interaction g sid "chat" now).1 = .rate_limited ↔
      (apply_rate_limiting g sid now).1.allowed = false) := by
  have hval := validate_session_valid_eq g sid now s hf hv
  have happ : apply_rate_limiting g sid now =
      apply_after { g with sessions := AList.insert g.sessions sid s } sid now
        (some s) := by
    dsimp only [apply_rate_limiting]
    rw [hval]
  have htrk : track_interaction g sid "chat" now =
      track_after { g with sessions := AList.insert g.sessions sid s } sid "chat" now
        (some s) := by
    dsimp only [track_interaction]
    rw [hval]
  have hsess : ∀ k, AList.find? (apply_rate_limiting g sid now).2.sessions k =
      AList.find? g.sessions k := by
    intro k
    rw [happ, apply_after_some_state, check_rate_limit_state]
    dsimp only
    by_cases he : k = sid
    · rw [he, AList.find?_insert_self, hf]
    · rw [AList.find?_insert_ne _ _ _ _ he]
  have hwin : AList.find? (apply_rate_limiting g sid now).2.rate_tracking sid =
      some (prunedWindow g sid now) := by
    rw [happ, apply_after_some_state, check_rate_limit_state]
    dsimp only
    exact AList.find?_insert_self _ _ _
  have hother : ∀ k, k ≠ sid →
      AList.find? (apply_rate_limiting g sid now).2.rate_tracking k =
      AList.find? g.rate_tracking k := by
    intro k hk
    rw [happ, apply_after_some_state, check_rate_limit_state]
    dsimp only
    rw [AList.find?_insert_ne _ _ _ _ hk]
  have hb : (check_rate_limit { g with sessions := AList.insert g.sessions sid s }
      sid now).1 =
      decide ((prunedWindow g sid now).length < g.rate_limit_per_minute) := rfl
  by_cases hdec : (prunedWindow g sid now).length < g.rate_limit_per_minute
  · have hbt : (check_rate_limit { g with sessions := AList.insert g.sessions sid s }
        sid now).1 = true := by
      rw [hb, decide_eq_true hdec]
    have happR : (apply_rate_limiting g sid now).1 =
        { allowed := true, reason := none, retry_after := none, current_count := none
          remaining := some (g.rate_limit_per_minute - (prunedWindow g sid now).length)
          limit := some g.rate_limit_per_minute } := by
      rw [happ]
      dsimp only [apply_after]
      rw [if_neg (by rw [hbt]; exact fun hc => Bool.noConfusion hc)]
      dsimp only
      rw [check_rate_limit_state]
      dsimp only
      rw [AList.find?_insert_self]
      rfl
    have htrkR : (track_interaction g sid "chat" now).1 ≠ .rate_limited := by
      rw [htrk]
      dsimp only [track_after]
      rw [if_neg (by rw [hbt]; exact fun hc => Bool.noConfusion hc)]
      split
      · exact fun hc => TrackResult.noConfusion hc
      · exact fun hc => TrackResult.noConfusion hc
    refine ⟨hsess, hwin, hother, ?_, ?_, ?_, ?_⟩
    · rw [happR, decide_eq_true hdec]
    · intro hfalse
      rw [happR] at hfalse
      cases hfalse
    · intro _
      rw [happR]
    · constructor
      · intro hlhs
        exact absurd hlhs htrkR
      · intro hfalse
        rw [happR] at hfalse
        cases hfalse
  · have hbf : (check_rate_limit { g with sessions := AList.insert g.sessions sid s }
        sid now).1 = false := by
      rw [hb, decide_eq_false hdec]
    have happR : (apply_rate_limiting g sid now).1 =
        { allowed := false, reason := some "rate_limit_exceeded"
          retry_after := some (((now - now % 60) + 60) - now)
          current_count := some (prunedWindow g sid now).length
          remaining := none
          limit := some g.rate_limit_per_minute } := by
      rw [happ]
      dsimp only [apply_after]
      rw [if_pos hbf]
      dsimp only
      rw [check_rate_limit_state]
      dsimp only
      rw [AList.find?_insert_self]
      rfl
    have htrkR : (track_interaction g sid "chat" now).1 = .rate_limited := by
      rw [htrk]
      dsimp only [track_after]
      rw [if_pos hbf]
    refine ⟨hsess, hwin, hother, ?_, ?_, ?_, ?_⟩
    · rw [happR, decide_eq_false hdec]
    · intro _
      rw [happR]
      exact ⟨congrArg some (by omega), rfl, rfl⟩
    · intro htrue
      rw [happR] at htrue
      cases htrue
    · constructor
      · intro _
        rw [happR]
      · intro _
        exact htrkR

theorem gesLleno_find : AList.find? gesLleno.sessions "a" = some sesActiva := by
  decide

/-- C8 witness: the probe instantiated on `gesLleno` (valid session,
window `[0, 95]`, limit 1) at instant 100, where the pruned count 1 is
at the limit. -/
theorem C8_witness :
    AList.find? gesLleno.sessions "a" = some sesActiva ∧
    (es_valida sesActiva 100).1 = true ∧
    ((∀ k, AList.find? (apply_rate_limiting gesLleno "a" 100).2.sessions k =
       AList.find? gesLleno.sessions k) ∧
    AList.find? (apply_rate_limiting gesLleno "a" 100).2.rate_tracking "a" =
      some (prunedWindow gesLleno "a" 100) ∧
    (∀ k, k ≠ "a" → AList.find? (apply_rate_limiting gesLleno "a" 100).2.rate_tracking k =
       AList.find? gesLleno.rate_tracking k) ∧
    (apply_rate_limiting gesLleno "a" 100).1.allowed =
      decide ((prunedWindow gesLleno "a" 100).length < gesLleno.rate_limit_per_minute) ∧
    ((apply_rate_limiting gesLleno "a" 100).1.allowed = false →
      (apply_rate_limiting gesLleno "a" 100).1.retry_after = some (60 - (100 : Int) % 60) ∧
      (apply_rate_limiting gesLleno "a" 100).1.current_count =
        some (prunedWindow gesLleno "a" 100).length ∧
      (apply_rate_limiting gesLleno "a" 100).1.reason = some "rate_limit_exceeded") ∧
    ((apply_rate_limiting gesLleno "a" 100).1.allowed = true →
      (apply_rate_limiting gesLleno "a" 100).1.remaining =
        some (gesLleno.rate_limit_per_minute - (prunedWindow gesLleno "a" 100).length)) ∧
    ((track_interaction gesLleno "a" "chat" 100).1 = .rate_limited ↔
      (apply_rate_limiting gesLleno "a" 100).1.allowed = false)) :=
  ⟨gesLleno_find, by decide,
   C8_probe_semantics gesLleno "a" 100 sesActiva gesLleno_find (by decide)⟩

/-- C8 counterexample: `apply_rate_limiting` is not a pure probe: on
`gesStale` at instant 100 it rewrites session `"a"`'s rate window from
`[0]` to `[]`, pruning the stale timestamp in place, so the rate-window
index does not stay unchanged. -/
theorem C8_counterexample :
    AList.find? gesStale.rate_tracking "a" = some [0] ∧
    AList.find? (apply_rate_limiting gesStale "a" 100).2.rate_tracking "a" = some [] ∧
    AList.find? (apply_rate_limiting gesStale "a" 100).2.rate_tracking "a" ≠
      AList.find? gesStale.rate_tracking "a" := by
  refine ⟨by decide, by decide, by decide⟩

end OMAR
